import Mathlib

/-!
Verification development for the School Library Chat Agent
(`library_agent.py`, `setup_database.py`).

The Python program is shallowly embedded:

* Python regular expressions (only the constructs actually used in the
  pattern table: literals, non-capturing alternation `(?:a|b)`, greedy
  option `(?:x)?`, the capture groups `(.+?)`, `(.+)`, `(\d+)`, and the
  end anchor `$`) are embedded as an AST `Regex` interpreted by a
  backtracking matcher `mrun` whose outcome list is ordered exactly by
  Python's backtracking priority; `rsearch` is `re.search` (leftmost
  position, then priority order).
* The SQLite database is embedded as lists of records; each SQL query of
  `LibraryDatabase` becomes a filter / join / sort on those lists.
  `LIKE '%t%'` with `LOWER` on both sides is the matcher `likeContains`,
  `ORDER BY` on a date column is an insertion sort by byte-wise string
  comparison (SQLite's BINARY collation on these ASCII dates).
* Strings are Lean `String`s; Python `str.lower` / `str.strip` are the
  ASCII `pyLower` / `pyStrip` (all pattern-table text is ASCII).
* Fallible store access is a `Store` record whose operations return
  `Except String`; the `try/except` around a handler call in
  `process_query` is the total function `catchExc`.
-/

/-! ## Python string primitives -/

/-- Python `str.lower()` restricted to ASCII (`Char.toLower`). -/
def pyLower (s : String) : String := ⟨s.data.map Char.toLower⟩

/-- Python `str.strip()`: drop whitespace from both ends. -/
def pyStrip (s : String) : String :=
  ⟨((s.data.dropWhile Char.isWhitespace).reverse.dropWhile Char.isWhitespace).reverse⟩

/-- Byte-order (codepoint) comparison of char lists: SQLite's BINARY
collation used by `ORDER BY` on the TEXT date columns. -/
def listLe : List Char → List Char → Bool
  | [], _ => true
  | _ :: _, [] => false
  | a :: as, b :: bs =>
    if a.toNat < b.toNat then true
    else if b.toNat < a.toNat then false
    else listLe as bs

/-- String comparison by codepoints, `s ≤ t`. -/
def dateLe (s t : String) : Bool := listLe s.data t.data

/-- Strict comparison `s < t` by codepoints (SQLite `<` on TEXT). -/
def dateLt (s t : String) : Bool := listLe s.data t.data && !(listLe t.data s.data)

/-- Substring test: true iff `pat` occurs inside `hay` (used only to state
properties of response strings, not in the embedded code). -/
def isSubL (p : List Char) : List Char → Bool
  | [] => p.isEmpty
  | c :: rest => p.isPrefixOf (c :: rest) || isSubL p rest

/-- String containment: `containsSub hay pat` iff `pat` occurs in `hay`. -/
def containsSub (hay pat : String) : Bool := isSubL pat.data hay.data

theorem listLe_total : ∀ a b : List Char, listLe a b = true ∨ listLe b a = true
  | [], _ => Or.inl rfl
  | _ :: _, [] => Or.inr rfl
  | a :: as, b :: bs => by
    simp only [listLe]
    rcases Nat.lt_trichotomy a.toNat b.toNat with h1 | h1 | h1
    · exact Or.inl (by rw [if_pos h1])
    · rcases listLe_total as bs with h | h
      · exact Or.inl (by rw [if_neg (by omega), if_neg (by omega)]; exact h)
      · exact Or.inr (by rw [if_neg (by omega), if_neg (by omega)]; exact h)
    · exact Or.inr (by rw [if_pos h1])

theorem listLe_trans : ∀ {a b c : List Char},
    listLe a b = true → listLe b c = true → listLe a c = true
  | [], _, _, _, _ => rfl
  | _ :: _, [], _, h, _ => by simp [listLe] at h
  | _ :: _, _ :: _, [], _, h => by simp [listLe] at h
  | a :: as, b :: bs, c :: cs, hab, hbc => by
    simp only [listLe] at hab hbc ⊢
    rcases Nat.lt_trichotomy a.toNat b.toNat with h1 | h1 | h1
    · rcases Nat.lt_trichotomy b.toNat c.toNat with h2 | h2 | h2
      · rw [if_pos (by omega)]
      · rw [if_pos (by omega)]
      · rw [if_neg (by omega), if_pos h2] at hbc; cases hbc
    · rcases Nat.lt_trichotomy b.toNat c.toNat with h2 | h2 | h2
      · rw [if_pos (by omega)]
      · rw [if_neg (by omega), if_neg (by omega)] at hab hbc ⊢
        exact listLe_trans hab hbc
      · rw [if_neg (by omega), if_pos h2] at hbc; cases hbc
    · rw [if_neg (by omega), if_pos h1] at hab; cases hab

/-! ## SQLite `LIKE` (with `LOWER` on both sides)

`execute_query("... LOWER(col) LIKE LOWER(?) ...", (f"%{t}%",))` builds the
pattern `%t%`; `likeMatchAux` is the standard LIKE matcher (`%` any run,
`_` any char), fueled to stay structurally recursive. -/

def likeMatchAux : Nat → List Char → List Char → Bool
  | 0, ps, cs => ps.isEmpty && cs.isEmpty
  | _ + 1, [], cs => cs.isEmpty
  | fuel + 1, '%' :: ps, cs =>
    likeMatchAux fuel ps cs ||
      (match cs with
       | [] => false
       | _ :: cs' => likeMatchAux fuel ('%' :: ps) cs')
  | fuel + 1, '_' :: ps, cs =>
    (match cs with
     | [] => false
     | _ :: cs' => likeMatchAux fuel ps cs')
  | fuel + 1, p :: ps, cs =>
    (match cs with
     | [] => false
     | c :: cs' => p == c && likeMatchAux fuel ps cs')

/-- Embeds `LOWER(field) LIKE LOWER('%term%')`. -/
def likeContains (field term : String) : Bool :=
  let pat := '%' :: (pyLower term).data ++ ['%']
  let f := (pyLower field).data
  likeMatchAux (pat.length + f.length + 1) pat f

/-! ## Regular expressions

Only the constructs used by `_build_patterns` and the stray-word `re.sub`.
`mrun r cs` returns the list of `(rest, capture)` outcomes of matching `r`
at the head of `cs`, ordered by Python's backtracking priority (first
element = what Python commits to). -/

inductive Regex where
  | str : String → Regex
  | seq : Regex → Regex → Regex
  | alt : Regex → Regex → Regex
  | opt : Regex → Regex
  | grpLazyDot : Regex
  | grpGreedyDot : Regex
  | grpDigits : Regex
  | eos : Regex
deriving Repr

/-- Length of the longest prefix `.` can consume (any char but newline). -/
def dotPrefixLen (cs : List Char) : Nat := (cs.takeWhile (fun c => c != '\n')).length

/-- Length of the longest digit prefix, for `\d+`. -/
def digitPrefixLen (cs : List Char) : Nat := (cs.takeWhile Char.isDigit).length

/-- Backtracking matcher; outcome list in Python priority order. -/
def mrun : Regex → List Char → List (List Char × Option (List Char))
  | .str s, cs =>
    if s.data.isPrefixOf cs then [(cs.drop s.data.length, none)] else []
  | .seq r1 r2, cs =>
    (mrun r1 cs).flatMap fun p => (mrun r2 p.1).map fun q => (q.1, p.2 <|> q.2)
  | .alt r1 r2, cs => mrun r1 cs ++ mrun r2 cs
  | .opt r1, cs => mrun r1 cs ++ [(cs, none)]
  | .grpLazyDot, cs =>
    (List.range (dotPrefixLen cs)).map fun k => (cs.drop (k + 1), some (cs.take (k + 1)))
  | .grpGreedyDot, cs =>
    ((List.range (dotPrefixLen cs)).map fun k =>
      (cs.drop (k + 1), some (cs.take (k + 1)))).reverse
  | .grpDigits, cs =>
    ((List.range (digitPrefixLen cs)).map fun k =>
      (cs.drop (k + 1), some (cs.take (k + 1)))).reverse
  | .eos, cs => if cs.isEmpty then [(cs, none)] else []

/-- Python `re.search`: try start positions left to right; at the first
position with a match, commit to the highest-priority outcome.  Returns
`some g` (with `g` the text of capture group 1, if any) on a match. -/
def searchFrom (r : Regex) : List Char → Option (Option String)
  | [] =>
    match mrun r [] with
    | p :: _ => some (p.2.map List.asString)
    | [] => none
  | c :: rest =>
    match mrun r (c :: rest) with
    | p :: _ => some (p.2.map List.asString)
    | [] => searchFrom r rest

/-- Runs `re.search(pattern, s)` on an already-normalized string. -/
def rsearch (r : Regex) (s : String) : Option (Option String) := searchFrom r s.data

/-! ## The stray-word `re.sub` of `_handle_student_borrowings`

`re.sub(r'\b(currently|borrow|borrowed|has|have|did)\b', '', name)`:
scan left to right; at a position whose left context is a word boundary,
replace the first alternative that matches and ends at a word boundary;
otherwise keep the char and advance.  Boundaries are checked against the
original string (Python continues from `match.end()`). -/

def strayWords : List String := ["currently", "borrow", "borrowed", "has", "have", "did"]

/-- Python `\w` (ASCII part): letters, digits, underscore. -/
def isWordChar (c : Char) : Bool := c.isAlphanum || c == '_'

/-- Attempt to match one stray word at the current position.  `prev` is the
char just left of the position (`none` at the start of the string).
Returns the word's last char (new left context) and the rest. -/
def strayAt (prev : Option Char) (cs : List Char) : Option (Char × List Char) :=
  if (match prev with | none => true | some p => !isWordChar p) then
    match strayWords.find? (fun w =>
        w.data.isPrefixOf cs &&
          (match cs.drop w.data.length with
           | [] => true
           | c :: _ => !isWordChar c)) with
    | some w => some (w.data.getLastD ' ', cs.drop w.data.length)
    | none => none
  else none

def subStrayAux : Nat → Option Char → List Char → List Char
  | 0, _, cs => cs
  | _ + 1, _, [] => []
  | fuel + 1, prev, c :: cs' =>
    match strayAt prev (c :: cs') with
    | some (lc, rest) => subStrayAux fuel (some lc) rest
    | none => c :: subStrayAux fuel (some c) cs'

/-- The whole `re.sub(r'\b(...)\b', '', s)` call. -/
def stripStrayWords (s : String) : String := ⟨subStrayAux s.data.length none s.data⟩

/-- Python `str.title()` (ASCII): uppercase a letter that follows a
non-letter, lowercase a letter that follows a letter. -/
def pyTitleAux : Bool → List Char → List Char
  | _, [] => []
  | prevAlpha, c :: cs =>
    (if prevAlpha then c.toLower else c.toUpper) :: pyTitleAux c.isAlpha cs

def pyTitle (s : String) : String := ⟨pyTitleAux false s.data⟩

/-! ## Data model (schema of `setup_database.py`) -/

structure Book where
  id : Nat
  title : String
  author : String
  isbn : String
  published_year : Int
  genre : String
  total_copies : Int
  available_copies : Int
deriving DecidableEq, Repr

structure Student where
  id : Nat
  name : String
  grade : Int
  student_id : String
deriving DecidableEq, Repr

structure Borrowing where
  id : Nat
  student_id : Nat
  book_id : Nat
  borrow_date : String
  due_date : String
  return_date : Option String
deriving DecidableEq, Repr

structure Database where
  books : List Book
  students : List Student
  borrowings : List Borrowing
deriving Repr

/-- Row shape of `get_books_borrowed_by_student` (columns of its SELECT). -/
structure BorrowRow where
  title : String
  author : String
  borrow_date : String
  due_date : String
  return_date : Option String
  status : String
deriving DecidableEq, Repr

/-- Row shape of `get_all_current_borrowings` and `get_overdue_books`. -/
structure CurRow where
  student_name : String
  student_id : String
  title : String
  author : String
  borrow_date : String
  due_date : String
deriving DecidableEq, Repr

/-- Row shape of `get_borrowing_history`. -/
structure HistRow where
  student_name : String
  title : String
  borrow_date : String
  due_date : String
  return_date : Option String
deriving DecidableEq, Repr

/-- Row shape of `get_book_availability`. -/
structure AvailRow where
  title : String
  author : String
  total_copies : Int
  available_copies : Int
  borrowed_copies : Int
deriving DecidableEq, Repr

/-- Result of `get_library_stats`. -/
structure Stats where
  total_books : Nat
  total_copies : Int
  available_copies : Int
  borrowed_copies : Int
  total_students : Nat
  active_borrowings : Nat
deriving DecidableEq, Repr

/-! ## The queries of `LibraryDatabase` -/

def get_all_books (db : Database) : List Book := db.books

def get_available_books (db : Database) : List Book :=
  db.books.filter fun b => decide (0 < b.available_copies)

def get_unavailable_books (db : Database) : List Book :=
  db.books.filter fun b => b.available_copies == 0

def search_books_by_title (db : Database) (title : String) : List Book :=
  db.books.filter fun b => likeContains b.title title

def search_books_by_author (db : Database) (author : String) : List Book :=
  db.books.filter fun b => likeContains b.author author

def search_books_by_genre (db : Database) (genre : String) : List Book :=
  db.books.filter fun b => likeContains b.genre genre

def get_all_students (db : Database) : List Student := db.students

/-- The three-way JOIN `borrowings br JOIN books b ON br.book_id = b.id
JOIN students s ON br.student_id = s.id` common to the borrowing views. -/
def joined (db : Database) : List (Borrowing × Book × Student) :=
  db.borrowings.flatMap fun br =>
    (db.books.filter fun b => b.id == br.book_id).flatMap fun b =>
      (db.students.filter fun s => s.id == br.student_id).map fun s => (br, b, s)

def mkBorrowRow (t : Borrowing × Book × Student) : BorrowRow :=
  { title := t.2.1.title
    author := t.2.1.author
    borrow_date := t.1.borrow_date
    due_date := t.1.due_date
    return_date := t.1.return_date
    status := match t.1.return_date with
      | none => "Currently Borrowed"
      | some _ => "Returned" }

def mkCurRow (t : Borrowing × Book × Student) : CurRow :=
  { student_name := t.2.2.name
    student_id := t.2.2.student_id
    title := t.2.1.title
    author := t.2.1.author
    borrow_date := t.1.borrow_date
    due_date := t.1.due_date }

def mkHistRow (t : Borrowing × Book × Student) : HistRow :=
  { student_name := t.2.2.name
    title := t.2.1.title
    borrow_date := t.1.borrow_date
    due_date := t.1.due_date
    return_date := t.1.return_date }

/-- Embeds `ORDER BY br.borrow_date DESC` on the student-borrowings rows. -/
def borrowDesc (a b : BorrowRow) : Prop := listLe b.borrow_date.data a.borrow_date.data = true

instance : DecidableRel borrowDesc := fun a b =>
  instDecidableEqBool (listLe b.borrow_date.data a.borrow_date.data) true

instance : IsTotal BorrowRow borrowDesc :=
  ⟨fun a b => listLe_total b.borrow_date.data a.borrow_date.data⟩

instance : IsTrans BorrowRow borrowDesc :=
  ⟨fun _ _ _ hab hbc => listLe_trans hbc hab⟩

/-- Embeds `ORDER BY br.due_date` (ascending) on the current/overdue rows. -/
def dueAsc (a b : CurRow) : Prop := listLe a.due_date.data b.due_date.data = true

instance : DecidableRel dueAsc := fun a b =>
  instDecidableEqBool (listLe a.due_date.data b.due_date.data) true

instance : IsTotal CurRow dueAsc := ⟨fun a b => listLe_total a.due_date.data b.due_date.data⟩

instance : IsTrans CurRow dueAsc := ⟨fun _ _ _ hab hbc => listLe_trans hab hbc⟩

/-- Embeds `ORDER BY br.borrow_date DESC` on the history rows. -/
def histDesc (a b : HistRow) : Prop := listLe b.borrow_date.data a.borrow_date.data = true

instance : DecidableRel histDesc := fun a b =>
  instDecidableEqBool (listLe b.borrow_date.data a.borrow_date.data) true

instance : IsTotal HistRow histDesc :=
  ⟨fun a b => listLe_total b.borrow_date.data a.borrow_date.data⟩

instance : IsTrans HistRow histDesc :=
  ⟨fun _ _ _ hab hbc => listLe_trans hbc hab⟩

def get_books_borrowed_by_student (db : Database) (student_name : String) : List BorrowRow :=
  List.insertionSort borrowDesc
    (((joined db).filter fun t => likeContains t.2.2.name student_name).map mkBorrowRow)

def get_all_current_borrowings (db : Database) : List CurRow :=
  List.insertionSort dueAsc
    (((joined db).filter fun t => t.1.return_date.isNone).map mkCurRow)

def get_overdue_books (db : Database) (current_date : String) : List CurRow :=
  List.insertionSort dueAsc
    (((joined db).filter fun t =>
        t.1.return_date.isNone && dateLt t.1.due_date current_date).map mkCurRow)

def get_borrowing_history (db : Database) : List HistRow :=
  List.insertionSort histDesc ((joined db).map mkHistRow)

def get_book_availability (db : Database) (title : String) : List AvailRow :=
  (db.books.filter fun b => likeContains b.title title).map fun b =>
    { title := b.title
      author := b.author
      total_copies := b.total_copies
      available_copies := b.available_copies
      borrowed_copies := b.total_copies - b.available_copies }

def get_students_by_grade (db : Database) (grade : Int) : List Student :=
  db.students.filter fun s => s.grade == grade

/-- SQL `SUM(col)`: `NULL` on the empty set, the sum otherwise. -/
def sqlSum : List Int → Option Int
  | [] => none
  | x :: xs => some (x :: xs).sum

def get_library_stats (db : Database) : Stats :=
  let total_copies := sqlSum (db.books.map Book.total_copies)
  let available_copies := sqlSum (db.books.map Book.available_copies)
  { total_books := db.books.length
    total_copies := total_copies.getD 0
    available_copies := available_copies.getD 0
    borrowed_copies := total_copies.getD 0 - available_copies.getD 0
    total_students := db.students.length
    active_borrowings := (db.borrowings.filter fun br => br.return_date.isNone).length }

/-! ## Seed data (`setup_database.py`): 12 books, 8 students, 13 borrowings;
`INTEGER PRIMARY KEY` ids are assigned 1, 2, 3, … in insertion order. -/

def seedBooks : List Book :=
  [ ⟨1, "The Hobbit", "J.R.R. Tolkien", "978-0547928227", 1937, "Fantasy", 5, 3⟩,
    ⟨2, "1984", "George Orwell", "978-0451524935", 1949, "Dystopia", 4, 1⟩,
    ⟨3, "To Kill a Mockingbird", "Harper Lee", "978-0446310789", 1960, "Fiction", 6, 4⟩,
    ⟨4, "Pride and Prejudice", "Jane Austen", "978-0141439518", 1813, "Romance", 3, 3⟩,
    ⟨5, "The Great Gatsby", "F. Scott Fitzgerald", "978-0743273565", 1925, "Fiction", 4, 2⟩,
    ⟨6, "Harry Potter and the Sorcerer\x27s Stone", "J.K. Rowling", "978-0590353427", 1997,
      "Fantasy", 8, 5⟩,
    ⟨7, "The Catcher in the Rye", "J.D. Salinger", "978-0316769488", 1951, "Fiction", 3, 0⟩,
    ⟨8, "Lord of the Flies", "William Golding", "978-0399501487", 1954, "Fiction", 4, 4⟩,
    ⟨9, "Animal Farm", "George Orwell", "978-0451526342", 1945, "Dystopia", 5, 3⟩,
    ⟨10, "Brave New World", "Aldous Huxley", "978-0060850524", 1932, "Dystopia", 3, 2⟩,
    ⟨11, "The Diary of a Young Girl", "Anne Frank", "978-0553296983", 1947, "Biography", 4, 4⟩,
    ⟨12, "Charlotte\x27s Web", "E.B. White", "978-0061124952", 1952, "Children", 6, 6⟩ ]

def seedStudents : List Student :=
  [ ⟨1, "Alice Chan", 10, "S2023001"⟩,
    ⟨2, "Bob Lee", 11, "S2023005"⟩,
    ⟨3, "Carol Martinez", 9, "S2023012"⟩,
    ⟨4, "David Kim", 10, "S2023018"⟩,
    ⟨5, "Emma Wilson", 12, "S2023022"⟩,
    ⟨6, "Frank Zhang", 11, "S2023030"⟩,
    ⟨7, "Grace Johnson", 9, "S2023035"⟩,
    ⟨8, "Henry Brown", 12, "S2023041"⟩ ]

def seedBorrowings : List Borrowing :=
  [ ⟨1, 1, 1, "2026-01-15", "2026-02-15", none⟩,
    ⟨2, 1, 2, "2025-12-01", "2025-12-15", some "2025-12-14"⟩,
    ⟨3, 2, 2, "2026-01-20", "2026-02-20", none⟩,
    ⟨4, 2, 5, "2026-01-25", "2026-02-25", none⟩,
    ⟨5, 3, 7, "2026-01-10", "2026-02-10", none⟩,
    ⟨6, 4, 6, "2026-01-28", "2026-02-28", none⟩,
    ⟨7, 5, 2, "2026-01-18", "2026-02-18", none⟩,
    ⟨8, 5, 10, "2026-01-22", "2026-02-22", none⟩,
    ⟨9, 6, 1, "2025-11-01", "2025-11-15", some "2025-11-14"⟩,
    ⟨10, 7, 6, "2026-01-30", "2026-03-01", none⟩,
    ⟨11, 7, 9, "2026-01-30", "2026-03-01", none⟩,
    ⟨12, 8, 7, "2026-01-05", "2026-02-05", none⟩,
    ⟨13, 8, 7, "2025-12-20", "2026-01-20", some "2026-01-19"⟩ ]

def seedDb : Database := ⟨seedBooks, seedStudents, seedBorrowings⟩

/-! ## Store interface

The agent reaches the database only through these operations; in the
Python program each one may raise (sqlite exceptions), which the embedding
renders as `Except String`.  `dbStore` is the store backed by an in-memory
`Database` value (never failing); `get_overdue_books`'s
`datetime.now()` default is the explicit `today` parameter. -/

structure Store where
  all_books : Except String (List Book)
  available_books : Except String (List Book)
  unavailable_books : Except String (List Book)
  books_by_title : String → Except String (List Book)
  books_by_author : String → Except String (List Book)
  books_by_genre : String → Except String (List Book)
  all_students : Except String (List Student)
  borrowed_by_student : String → Except String (List BorrowRow)
  current_borrowings : Except String (List CurRow)
  overdue_books : Except String (List CurRow)
  borrowing_history : Except String (List HistRow)
  book_availability : String → Except String (List AvailRow)
  students_by_grade : Int → Except String (List Student)
  library_stats : Except String Stats

def dbStore (db : Database) (today : String) : Store :=
  { all_books := .ok (get_all_books db)
    available_books := .ok (get_available_books db)
    unavailable_books := .ok (get_unavailable_books db)
    books_by_title := fun t => .ok (search_books_by_title db t)
    books_by_author := fun a => .ok (search_books_by_author db a)
    books_by_genre := fun g => .ok (search_books_by_genre db g)
    all_students := .ok (get_all_students db)
    borrowed_by_student := fun n => .ok (get_books_borrowed_by_student db n)
    current_borrowings := .ok (get_all_current_borrowings db)
    overdue_books := .ok (get_overdue_books db today)
    borrowing_history := .ok (get_borrowing_history db)
    book_availability := fun t => .ok (get_book_availability db t)
    students_by_grade := fun g => .ok (get_students_by_grade db g)
    library_stats := .ok (get_library_stats db) }

/-- A store whose every operation raises, to exercise the error path. -/
def failingStore (e : String) : Store :=
  { all_books := .error e
    available_books := .error e
    unavailable_books := .error e
    books_by_title := fun _ => .error e
    books_by_author := fun _ => .error e
    books_by_genre := fun _ => .error e
    all_students := .error e
    borrowed_by_student := fun _ => .error e
    current_borrowings := .error e
    overdue_books := .error e
    borrowing_history := .error e
    book_availability := fun _ => .error e
    students_by_grade := fun _ => .error e
    library_stats := .error e }

/-! ## Formatters

The Python source file literally contains mojibake characters (its emoji
were double-encoded); the `\uXXXX` escapes below reproduce the file's
exact codepoints.  `_format_borrowings` branches on which keys a row dict
has; each SELECT shape gets the correspondingly specialized formatter. -/

def dashes50 : String := ⟨List.replicate 50 '-'⟩

def bulletS : String := "  ‚Ä¢ "

/-- Embeds `_format_books` (rows always carry copies; genre shown when truthy). -/
def format_books (books : List Book) (title : String) : String :=
  if books.isEmpty then
    "No " ++ pyLower title ++ " found."
  else
    "\nüìö " ++ title ++ " (" ++ toString books.length ++ " found):\n"
      ++ dashes50 ++ "\n"
      ++ String.join (books.map fun b =>
          bulletS ++ b.title ++ " by " ++ b.author
            ++ " [" ++ toString b.available_copies ++ "/" ++ toString b.total_copies
            ++ " available]"
            ++ (if b.genre == "" then "" else " (" ++ b.genre ++ ")")
            ++ "\n")

/-- Embeds `_format_borrowings` on `get_books_borrowed_by_student` rows (keys:
title, author, dates, return_date, status; no student_name). -/
def format_borrow_rows (rows : List BorrowRow) (title : String) : String :=
  if rows.isEmpty then
    "No " ++ pyLower title ++ " found."
  else
    "\nüìñ " ++ title ++ " (" ++ toString rows.length ++ " found):\n"
      ++ dashes50 ++ "\n"
      ++ String.join (rows.map fun b =>
          bulletS ++ b.title
            ++ "\n    Borrowed: " ++ b.borrow_date
            ++ " | Due: " ++ b.due_date
            ++ " | Status: " ++ b.status
            ++ (match b.return_date with
                | some rd => if rd == "" then "" else " | Returned: " ++ rd
                | none => "")
            ++ "\n")

/-- Embeds `_format_borrowings` on current/overdue rows (keys: student_name,
dates; no status, no return_date). -/
def format_cur_rows (rows : List CurRow) (title : String) : String :=
  if rows.isEmpty then
    "No " ++ pyLower title ++ " found."
  else
    "\nüìñ " ++ title ++ " (" ++ toString rows.length ++ " found):\n"
      ++ dashes50 ++ "\n"
      ++ String.join (rows.map fun b =>
          bulletS ++ b.title ++ " - " ++ b.student_name
            ++ "\n    Borrowed: " ++ b.borrow_date
            ++ " | Due: " ++ b.due_date
            ++ "\n")

/-- Embeds `_format_borrowings` on history rows (keys: student_name, dates,
return_date; no status). -/
def format_hist_rows (rows : List HistRow) (title : String) : String :=
  if rows.isEmpty then
    "No " ++ pyLower title ++ " found."
  else
    "\nüìñ " ++ title ++ " (" ++ toString rows.length ++ " found):\n"
      ++ dashes50 ++ "\n"
      ++ String.join (rows.map fun b =>
          bulletS ++ b.title ++ " - " ++ b.student_name
            ++ "\n    Borrowed: " ++ b.borrow_date
            ++ " | Due: " ++ b.due_date
            ++ (match b.return_date with
                | some rd => if rd == "" then "" else " | Returned: " ++ rd
                | none => "")
            ++ "\n")

/-- Embeds `_format_students`. -/
def format_students (students : List Student) (title : String) : String :=
  if students.isEmpty then
    "No " ++ pyLower title ++ " found."
  else
    "\nüéì " ++ title ++ " (" ++ toString students.length ++ " found):\n"
      ++ dashes50 ++ "\n"
      ++ String.join (students.map fun s =>
          bulletS ++ s.name ++ " (ID: " ++ s.student_id ++ ", Grade: "
            ++ toString s.grade ++ ")\n")

/-! ## Handlers

Each handler of `LibraryChatAgent` receives the single capture group of
its matched pattern (`none` when the pattern captures nothing; accessing
it then raises, as `match.group(1)` would).  Handlers run in
`Except String`: an `error` is a Python exception travelling up to the
`try/except` in `process_query`. -/

def getGroup : Option String → Except String String
  | some s => .ok s
  | none => .error "no such group"

def pleaseSpecify : String := "Please specify a student name."

/-- The name cleanup of `_handle_student_borrowings`:
`match.group(1).strip()`, then the stray-word `re.sub`, then `.strip()`. -/
def cleanedName (c : String) : String := pyStrip (stripStrayWords (pyStrip c))

def handle_student_borrowings (st : Store) (g : Option String) : Except String String :=
  match getGroup g with
  | .error e => .error e
  | .ok c =>
    let student_name := cleanedName c
    if student_name = "" ∨ student_name.length < 2 then
      .ok pleaseSpecify
    else
      match st.borrowed_by_student student_name with
      | .error e => .error e
      | .ok borrowings =>
        .ok (format_borrow_rows borrowings
          ("Books borrowed by \x27" ++ student_name ++ "\x27"))

def handle_available_books (st : Store) : Except String String :=
  match st.available_books with
  | .error e => .error e
  | .ok books => .ok (format_books books "Available Books")

def handle_unavailable_books (st : Store) : Except String String :=
  match st.unavailable_books with
  | .error e => .error e
  | .ok books => .ok (format_books books "Unavailable Books (All copies borrowed)")

def handle_all_books (st : Store) : Except String String :=
  match st.all_books with
  | .error e => .error e
  | .ok books => .ok (format_books books "All Library Books")

def handle_search_by_author (st : Store) (g : Option String) : Except String String :=
  match getGroup g with
  | .error e => .error e
  | .ok c =>
    let author := pyStrip c
    match st.books_by_author author with
    | .error e => .error e
    | .ok books => .ok (format_books books ("Books by \x27" ++ author ++ "\x27"))

def skipWords : List String := ["all", "the", "list", "show", "available", "borrowed"]

def handle_search_by_genre (st : Store) (g : Option String) : Except String String :=
  match getGroup g with
  | .error e => .error e
  | .ok c =>
    let genre := pyStrip c
    if skipWords.contains (pyLower genre) then
      handle_all_books st
    else
      match st.books_by_genre genre with
      | .error e => .error e
      | .ok books =>
        if books.isEmpty then
          match st.books_by_title genre with
          | .error e => .error e
          | .ok books2 =>
            if books2.isEmpty then
              .ok ("No books found for genre or title \x27" ++ genre ++ "\x27.")
            else
              .ok (format_books books2 ("Books matching \x27" ++ genre ++ "\x27"))
        else
          .ok (format_books books ("\x27" ++ pyTitle genre ++ "\x27 Books"))

def handle_book_availability (st : Store) (g : Option String) : Except String String :=
  match getGroup g with
  | .error e => .error e
  | .ok c =>
    let title := pyStrip c
    match st.book_availability title with
    | .error e => .error e
    | .ok books =>
      if books.isEmpty then
        .ok ("No book found matching \x27" ++ title ++ "\x27.")
      else
        .ok ("\n\uF8FF\u00FC\u00EC\u00F6 Availability for \x27" ++ title ++ "\x27:\n"
          ++ dashes50 ++ "\n"
          ++ String.join (books.map fun b =>
              bulletS ++ b.title ++ " by " ++ b.author ++ "\n    "
                ++ (if 0 < b.available_copies then "\u201A\u00FA\u00D6 Available"
                    else "\u201A\u00F9\u00E5 Not Available")
                ++ " (" ++ toString b.available_copies ++ "/" ++ toString b.total_copies
                ++ " copies)\n"))

def handle_current_borrowings (st : Store) : Except String String :=
  match st.current_borrowings with
  | .error e => .error e
  | .ok borrowings => .ok (format_cur_rows borrowings "Current Borrowings")

def noOverdueMsg : String :=
  "\u201A\u00FA\u00D6 No overdue books! All borrowed books are within their due dates."

def overdueTitle : String := "\u201A\u00F6\u2020\u00D4\u220F\u00E8 Overdue Books"

def handle_overdue_books (st : Store) : Except String String :=
  match st.overdue_books with
  | .error e => .error e
  | .ok borrowings =>
    if borrowings.isEmpty then
      .ok noOverdueMsg
    else
      .ok (format_cur_rows borrowings overdueTitle)

def handle_all_students (st : Store) : Except String String :=
  match st.all_students with
  | .error e => .error e
  | .ok students => .ok (format_students students "All Students")

def handle_students_by_grade (st : Store) (g : Option String) : Except String String :=
  match getGroup g with
  | .error e => .error e
  | .ok c =>
    match c.toNat? with
    | none => .error ("invalid literal for int() with base 10: \x27" ++ c ++ "\x27")
    | some grade =>
      match st.students_by_grade (grade : Int) with
      | .error e => .error e
      | .ok students =>
        .ok (format_students students ("Grade " ++ toString grade ++ " Students"))

def handle_library_stats (st : Store) : Except String String :=
  match st.library_stats with
  | .error e => .error e
  | .ok stats =>
    .ok ("\n\uF8FF\u00FC\u00EC\u00E4 Library Statistics:\n" ++ dashes50 ++ "\n"
      ++ "  \uF8FF\u00FC\u00EC\u00F6 Total unique books: " ++ toString stats.total_books ++ "\n"
      ++ "  \uF8FF\u00FC\u00EC\u00F1 Total copies: " ++ toString stats.total_copies ++ "\n"
      ++ "  \u201A\u00FA\u00D6 Available copies: " ++ toString stats.available_copies ++ "\n"
      ++ "  \uF8FF\u00FC\u00EC\u00A7 Borrowed copies: " ++ toString stats.borrowed_copies ++ "\n"
      ++ "  \uF8FF\u00FC\u00E9\u00EC Total students: " ++ toString stats.total_students ++ "\n"
      ++ "  \uF8FF\u00FC\u00EC\u00E3 Active borrowings: " ++ toString stats.active_borrowings ++ "\n")

def handle_borrowing_history (st : Store) : Except String String :=
  match st.borrowing_history with
  | .error e => .error e
  | .ok borrowings => .ok (format_hist_rows borrowings "Borrowing History")


/-- Static text of `_handle_help` (transcribed verbatim). -/
def helpText : String :=
  "\nüìö School Library Chat Agent - Help\n‚îÅ‚îÅ‚îÅ‚îÅ‚îÅ‚îÅ‚îÅ‚îÅ‚îÅ‚îÅ‚îÅ‚îÅ‚îÅ‚îÅ‚îÅ‚îÅ‚îÅ‚îÅ‚îÅ‚îÅ‚îÅ‚îÅ‚îÅ‚îÅ‚îÅ‚îÅ‚îÅ‚îÅ‚îÅ‚îÅ‚îÅ‚îÅ‚îÅ‚îÅ‚îÅ‚îÅ‚îÅ‚îÅ‚îÅ‚îÅ‚îÅ‚îÅ‚îÅ‚îÅ‚îÅ‚îÅ‚îÅ‚îÅ‚îÅ‚îÅ\n\nI can help you with the following queries:\n\nüìñ BOOKS:\n  ‚Ä¢ \"What books are available?\"\n  ‚Ä¢ \"Show all books\"\n  ‚Ä¢ \"Books by [author name]\"\n  ‚Ä¢ \"Fantasy books\" (search by genre)\n  ‚Ä¢ \"Is [book title] available?\"\n\nüë§ STUDENTS:\n  ‚Ä¢ \"List all students\"\n  ‚Ä¢ \"Students in grade 10\"\n\nüìã BORROWINGS:\n  ‚Ä¢ \"What books did Alice Chan borrow?\"\n  ‚Ä¢ \"Current borrowings\"\n  ‚Ä¢ \"Overdue books\"\n  ‚Ä¢ \"Borrowing history\"\n\nüìä OTHER:\n  ‚Ä¢ \"Library stats\" - Get overall statistics\n  ‚Ä¢ \"help\" - Show this help message\n\nType \x27quit\x27 or \x27exit\x27 to leave the chat.\n‚îÅ‚îÅ‚îÅ‚îÅ‚îÅ‚îÅ‚îÅ‚îÅ‚îÅ‚îÅ‚îÅ‚îÅ‚îÅ‚îÅ‚îÅ‚îÅ‚îÅ‚îÅ‚îÅ‚îÅ‚îÅ‚îÅ‚îÅ‚îÅ‚îÅ‚îÅ‚îÅ‚îÅ‚îÅ‚îÅ‚îÅ‚îÅ‚îÅ‚îÅ‚îÅ‚îÅ‚îÅ‚îÅ‚îÅ‚îÅ‚îÅ‚îÅ‚îÅ‚îÅ‚îÅ‚îÅ‚îÅ‚îÅ‚îÅ‚îÅ\n"

/-- Static text of `_handle_unknown` (transcribed verbatim). -/
def unknownResponse : String :=
  "\nü§î I\x27m not sure how to answer that question.\n\nTry asking things like:\n  ‚Ä¢ \"What books are available?\"\n  ‚Ä¢ \"What books did Alice Chan borrow?\"\n  ‚Ä¢ \"Show all students\"\n  ‚Ä¢ \"Library stats\"\n\nType \x27help\x27 for more options.\n"

/-! ## The pattern table of `_build_patterns`

Each `(regex, tag)` pair transcribes one entry, in declaration order.
Handler tags stand for the bound methods paired with the patterns. -/

inductive Tag where
  | studentBorrowings
  | availableBooks
  | unavailableBooks
  | allBooks
  | searchByAuthor
  | searchByGenre
  | bookAvailability
  | currentBorrowings
  | overdueBooks
  | allStudents
  | studentsByGrade
  | libraryStats
  | borrowingHistory
  | helpTag
deriving DecidableEq, Repr

/-- Right-nested concatenation of a pattern's pieces. -/
def rcat : List Regex → Regex
  | [] => .str ""
  | [r] => r
  | r :: rest => .seq r (rcat rest)

def alt3 (a b c : Regex) : Regex := .alt a (.alt b c)

def alt4 (a b c d : Regex) : Regex := .alt a (.alt b (.alt c d))

/-- Pattern piece `books?`. -/
def bookW : Regex := .seq (.str "book") (.opt (.str "s"))

/-- Pattern piece `students?`. -/
def studentW : Regex := .seq (.str "student") (.opt (.str "s"))

/-- Pattern piece `borrowings?`. -/
def borrowingW : Regex := .seq (.str "borrowing") (.opt (.str "s"))

/-- Pattern `(?:what|which) books? (?:did|has|have) (.+?) borrow` -/
def pat0 : Regex := rcat [.alt (.str "what") (.str "which"), .str " ", bookW, .str " ",
  alt3 (.str "did") (.str "has") (.str "have"), .str " ", .grpLazyDot, .str " borrow"]

/-- Pattern `books? borrowed by (.+)` -/
def pat1 : Regex := rcat [bookW, .str " borrowed by ", .grpGreedyDot]

/-- Pattern `(.+?)(?:'s)? (?:borrowed )?books?` -/
def pat2 : Regex := rcat [.grpLazyDot, .opt (.str "\x27s"), .str " ",
  .opt (.str "borrowed "), bookW]

/-- Pattern `(?:which|what) books? (?:are|is) (?:currently )?available` -/
def pat3 : Regex := rcat [.alt (.str "which") (.str "what"), .str " ", bookW, .str " ",
  .alt (.str "are") (.str "is"), .str " ", .opt (.str "currently "), .str "available"]

/-- Pattern `available books?` -/
def pat4 : Regex := rcat [.str "available ", bookW]

/-- Pattern `books? (?:that are )?(?:in stock|available)` -/
def pat5 : Regex := rcat [bookW, .str " ", .opt (.str "that are "),
  .alt (.str "in stock") (.str "available")]

/-- Pattern `(?:which|what) books? (?:are|is) (?:not available|unavailable|borrowed out)` -/
def pat6 : Regex := rcat [.alt (.str "which") (.str "what"), .str " ", bookW, .str " ",
  .alt (.str "are") (.str "is"), .str " ",
  alt3 (.str "not available") (.str "unavailable") (.str "borrowed out")]

/-- Pattern `unavailable books?` -/
def pat7 : Regex := rcat [.str "unavailable ", bookW]

/-- Pattern `(?:list|show|get|what are) (?:all )?(?:the )?books?` -/
def pat8 : Regex := rcat [alt4 (.str "list") (.str "show") (.str "get") (.str "what are"),
  .str " ", .opt (.str "all "), .opt (.str "the "), bookW]

/-- Pattern `all books?` -/
def pat9 : Regex := rcat [.str "all ", bookW]

/-- Pattern `books? (?:written )?by (.+)` -/
def pat10 : Regex := rcat [bookW, .str " ", .opt (.str "written "), .str "by ", .grpGreedyDot]

/-- Pattern `(?:find|search|get) (.+?)(?:'s)? books?` -/
def pat11 : Regex := rcat [alt3 (.str "find") (.str "search") (.str "get"), .str " ",
  .grpLazyDot, .opt (.str "\x27s"), .str " ", bookW]

/-- Pattern `(.+?) books?$` -/
def pat12 : Regex := rcat [.grpLazyDot, .str " ", bookW, .eos]

/-- Pattern `books? (?:in|of) (?:the )?(.+?) genre` -/
def pat13 : Regex := rcat [bookW, .str " ", .alt (.str "in") (.str "of"), .str " ",
  .opt (.str "the "), .grpLazyDot, .str " genre"]

/-- Pattern `(?:is|are) (.+?) available` -/
def pat14 : Regex := rcat [.alt (.str "is") (.str "are"), .str " ", .grpLazyDot,
  .str " available"]

/-- Pattern `(?:check|find) availability (?:of|for) (.+)` -/
def pat15 : Regex := rcat [.alt (.str "check") (.str "find"), .str " availability ",
  .alt (.str "of") (.str "for"), .str " ", .grpGreedyDot]

/-- Pattern `(?:do you have|have) (.+)` -/
def pat16 : Regex := rcat [.alt (.str "do you have") (.str "have"), .str " ", .grpGreedyDot]

/-- Pattern `(?:current|active) borrowings?` -/
def pat17 : Regex := rcat [.alt (.str "current") (.str "active"), .str " ", borrowingW]

/-- Pattern `(?:who|which students?) (?:has|have) borrowed` -/
def pat18 : Regex := rcat [.alt (.str "who") (.seq (.str "which ") studentW), .str " ",
  .alt (.str "has") (.str "have"), .str " borrowed"]

/-- Pattern `(?:what|which) books? (?:are|is) (?:currently )?borrowed` -/
def pat19 : Regex := rcat [.alt (.str "what") (.str "which"), .str " ", bookW, .str " ",
  .alt (.str "are") (.str "is"), .str " ", .opt (.str "currently "), .str "borrowed"]

/-- Pattern `overdue books?` -/
def pat20 : Regex := rcat [.str "overdue ", bookW]

/-- Pattern `(?:which|what) books? (?:are|is) overdue` -/
def pat21 : Regex := rcat [.alt (.str "which") (.str "what"), .str " ", bookW, .str " ",
  .alt (.str "are") (.str "is"), .str " overdue"]

/-- Pattern `late (?:returns?|books?)` -/
def pat22 : Regex := rcat [.str "late ",
  .alt (.seq (.str "return") (.opt (.str "s"))) bookW]

/-- Pattern `(?:list|show|get|all) students?` -/
def pat23 : Regex := rcat [alt4 (.str "list") (.str "show") (.str "get") (.str "all"),
  .str " ", studentW]

/-- Pattern `(?:who are|which) (?:the )?students?` -/
def pat24 : Regex := rcat [.alt (.str "who are") (.str "which"), .str " ",
  .opt (.str "the "), studentW]

/-- Pattern `students? in grade (\d+)` -/
def pat25 : Regex := rcat [studentW, .str " in grade ", .grpDigits]

/-- Pattern `grade (\d+) students?` -/
def pat26 : Regex := rcat [.str "grade ", .grpDigits, .str " ", studentW]

/-- Pattern `(?:library )?(?:stats?|statistics|summary|overview)` -/
def pat27 : Regex := rcat [.opt (.str "library "),
  alt4 (.seq (.str "stat") (.opt (.str "s"))) (.str "statistics") (.str "summary")
    (.str "overview")]

/-- Pattern `how many books?` -/
def pat28 : Regex := rcat [.str "how many ", bookW]

/-- Pattern `borrowing history` -/
def pat29 : Regex := .str "borrowing history"

/-- Pattern `(?:all )?borrowings?` -/
def pat30 : Regex := rcat [.opt (.str "all "), borrowingW]

/-- Pattern `help|what can you do|commands?` -/
def pat31 : Regex := alt3 (.str "help") (.str "what can you do")
  (.seq (.str "command") (.opt (.str "s")))

/-- Embeds `_build_patterns`: the ordered pattern table. -/
def buildPatterns : List (Regex × Tag) :=
  [ (pat0, .studentBorrowings), (pat1, .studentBorrowings), (pat2, .studentBorrowings),
    (pat3, .availableBooks), (pat4, .availableBooks), (pat5, .availableBooks),
    (pat6, .unavailableBooks), (pat7, .unavailableBooks),
    (pat8, .allBooks), (pat9, .allBooks),
    (pat10, .searchByAuthor), (pat11, .searchByAuthor),
    (pat12, .searchByGenre), (pat13, .searchByGenre),
    (pat14, .bookAvailability), (pat15, .bookAvailability), (pat16, .bookAvailability),
    (pat17, .currentBorrowings), (pat18, .currentBorrowings), (pat19, .currentBorrowings),
    (pat20, .overdueBooks), (pat21, .overdueBooks), (pat22, .overdueBooks),
    (pat23, .allStudents), (pat24, .allStudents),
    (pat25, .studentsByGrade), (pat26, .studentsByGrade),
    (pat27, .libraryStats), (pat28, .libraryStats),
    (pat29, .borrowingHistory), (pat30, .borrowingHistory),
    (pat31, .helpTag) ]

/-! ## Dispatch (`process_query`) -/

/-- Run the handler a tag stands for. -/
def runHandler (t : Tag) (st : Store) (g : Option String) : Except String String :=
  match t with
  | .studentBorrowings => handle_student_borrowings st g
  | .availableBooks => handle_available_books st
  | .unavailableBooks => handle_unavailable_books st
  | .allBooks => handle_all_books st
  | .searchByAuthor => handle_search_by_author st g
  | .searchByGenre => handle_search_by_genre st g
  | .bookAvailability => handle_book_availability st g
  | .currentBorrowings => handle_current_borrowings st
  | .overdueBooks => handle_overdue_books st
  | .allStudents => handle_all_students st
  | .studentsByGrade => handle_students_by_grade st g
  | .libraryStats => handle_library_stats st
  | .borrowingHistory => handle_borrowing_history st
  | .helpTag => pure helpText

/-- The `for pattern, handler in self.patterns` loop: first match wins. -/
def scanPatterns : List (Regex × Tag) → String → Option (Tag × Option String)
  | [], _ => none
  | (r, t) :: rest, q =>
    match rsearch r q with
    | some g => some (t, g)
    | none => scanPatterns rest q

/-- The `try: return handler(match) except Exception as e: ...` wrapper. -/
def catchExc : Except String String → String
  | .ok s => s
  | .error e => "Sorry, I encountered an error: " ++ e

def emptyQueryMsg : String := "Please enter a question about the library."

/-- Normalization at the top of `process_query`: `query.strip().lower()`. -/
def normQ (q : String) : String := pyLower (pyStrip q)

/-- Embeds `process_query`, parameterized by the pattern table it scans. -/
def processQueryWith (ps : List (Regex × Tag)) (st : Store) (q : String) : String :=
  let nq := normQ q
  if nq = "" then emptyQueryMsg
  else
    match scanPatterns ps nq with
    | some (t, g) => catchExc (runHandler t st g)
    | none => unknownResponse

/-- Embeds `LibraryChatAgent.process_query`. -/
def processQuery (st : Store) (q : String) : String := processQueryWith buildPatterns st q

/-! ## The agent object

`LibraryChatAgent.__init__` builds the pattern table once; `process_query`
reads it and never writes any attribute.  The embedding threads the object
state explicitly so that statelessness is a provable statement. -/

structure Agent where
  patterns : List (Regex × Tag)
deriving Repr

/-- Embeds `LibraryChatAgent(db)`: the constructor calls `_build_patterns` once. -/
def mkAgent : Agent := { patterns := buildPatterns }

/-- A `process_query` call on the agent object: returns the response and
the (unchanged) object state. -/
def processQueryS (a : Agent) (st : Store) (q : String) : String × Agent :=
  (processQueryWith a.patterns st q, a)

/-- Index of the first pattern whose `re.search` matches (router view). -/
def firstMatchIdx (ps : List (Regex × Tag)) (q : String) : Option Nat :=
  ps.findIdx? fun p => (rsearch p.1 q).isSome

/-! ## Dispatch lemmas -/

theorem scanPatterns_first : ∀ (ps : List (Regex × Tag)) (q : String) (i : Nat)
    (hi : i < ps.length) (g : Option String),
    rsearch (ps.get ⟨i, hi⟩).1 q = some g →
    (∀ j (hj : j < i), rsearch (ps.get ⟨j, Nat.lt_trans hj hi⟩).1 q = none) →
    scanPatterns ps q = some ((ps.get ⟨i, hi⟩).2, g)
  | [], _, i, hi, _, _, _ => absurd hi (Nat.not_lt_zero i)
  | (r, t) :: _, q, 0, _, g, hs, _ => by
    have hr : rsearch r q = some g := hs
    simp [scanPatterns, hr]
  | (r, t) :: rest, q, i + 1, hi, g, hs, hp => by
    have h0 : rsearch r q = none := hp 0 (Nat.succ_pos i)
    have ih := scanPatterns_first rest q i (Nat.lt_of_succ_lt_succ hi) g hs
      (fun j hj => hp (j + 1) (Nat.succ_lt_succ hj))
    simpa [scanPatterns, h0] using ih

theorem scanPatterns_none : ∀ (ps : List (Regex × Tag)) (q : String),
    (∀ i (hi : i < ps.length), rsearch (ps.get ⟨i, hi⟩).1 q = none) →
    scanPatterns ps q = none
  | [], _, _ => rfl
  | (r, t) :: rest, q, hp => by
    have h0 : rsearch r q = none := hp 0 (Nat.succ_pos rest.length)
    have ih := scanPatterns_none rest q (fun i hi => hp (i + 1) (Nat.succ_lt_succ hi))
    simp [scanPatterns, h0, ih]

/-- Claim C1: for every input whose normalization (trim then lowercase) is
non-empty, `process_query` invokes exactly the handler paired with the
first pattern, in declaration order, whose regex search matches the
normalized input (no later pattern's handler is invoked), and when no
pattern matches it returns the unknown-query response. -/
theorem spec_C1 (st : Store) (q : String) (hne : normQ q ≠ "") :
    (∀ (i : Nat) (hi : i < buildPatterns.length) (g : Option String),
        rsearch (buildPatterns.get ⟨i, hi⟩).1 (normQ q) = some g →
        (∀ j (hj : j < i),
          rsearch (buildPatterns.get ⟨j, Nat.lt_trans hj hi⟩).1 (normQ q) = none) →
        processQuery st q = catchExc (runHandler (buildPatterns.get ⟨i, hi⟩).2 st g))
    ∧ ((∀ i (hi : i < buildPatterns.length),
          rsearch (buildPatterns.get ⟨i, hi⟩).1 (normQ q) = none) →
        processQuery st q = unknownResponse) := by
  constructor
  · intro i hi g hs hp
    have hscan := scanPatterns_first buildPatterns (normQ q) i hi g hs hp
    simp [processQuery, processQueryWith, hne, hscan]
  · intro hall
    have hscan := scanPatterns_none buildPatterns (normQ q) hall
    simp [processQuery, processQueryWith, hne, hscan]

/-- Witness for C1 at the concrete input `"what books did alice borrow"`,
which the very first pattern matches with capture `"alice"`. -/
theorem spec_C1_witness :
    normQ "what books did alice borrow" ≠ ""
    ∧ processQuery (dbStore seedDb "2026-02-01") "what books did alice borrow"
        = catchExc (runHandler Tag.studentBorrowings (dbStore seedDb "2026-02-01")
            (some "alice")) :=
  ⟨by decide,
    (spec_C1 (dbStore seedDb "2026-02-01") "what books did alice borrow" (by decide)).1
      0 (by decide) (some "alice") (by decide)
      (fun j hj => absurd hj (Nat.not_lt_zero j))⟩

set_option maxRecDepth 10000 in
/-- Claim C2 (refuted by the code; evaluation at the claimed input): on the
seed database, `process_query "What books are available?"` is captured by
the third pattern `(.+?)(?:'s)? (?:borrowed )?books?` (index 2, the
student-borrowings intent), so the response is the no-borrowings message
for the pseudo-name `what` and contains neither `"Available Books"` nor
`"The Hobbit"`. -/
theorem spec_C2_eval :
    firstMatchIdx buildPatterns (normQ "What books are available?") = some 2
    ∧ processQuery (dbStore seedDb "2026-02-01") "What books are available?"
        = "No books borrowed by \x27what\x27 found."
    ∧ containsSub (processQuery (dbStore seedDb "2026-02-01") "What books are available?")
        "Available Books" = false
    ∧ containsSub (processQuery (dbStore seedDb "2026-02-01") "What books are available?")
        "The Hobbit" = false := by
  decide

set_option maxRecDepth 10000 in
/-- Claim C3 (refuted by the code; evaluation at the claimed input): on the
seed database, `process_query "Fantasy books"` is captured by the third
pattern (index 2, the student-borrowings intent), not the genre pattern,
so the response is the no-borrowings message for the pseudo-name
`fantasy` and contains neither claimed title. -/
theorem spec_C3_eval :
    firstMatchIdx buildPatterns (normQ "Fantasy books") = some 2
    ∧ processQuery (dbStore seedDb "2026-02-01") "Fantasy books"
        = "No books borrowed by \x27fantasy\x27 found."
    ∧ containsSub (processQuery (dbStore seedDb "2026-02-01") "Fantasy books")
        "The Hobbit" = false
    ∧ containsSub (processQuery (dbStore seedDb "2026-02-01") "Fantasy books")
        "Harry Potter and the Sorcerer\x27s Stone" = false := by
  decide

set_option maxRecDepth 10000 in
/-- Claim C4: `"Alice Chan's books"` is routed to the student-borrowings
intent (pattern index 2, capture `"alice chan"`), not to the genre-suffix
pattern (index 12); on the seed database the response is exactly the
formatted list of the borrowings of the student whose name contains
`"alice chan"`, and it reports both of Alice Chan's borrowings. -/
theorem spec_C4 :
    firstMatchIdx buildPatterns (normQ "Alice Chan\x27s books") = some 2
    ∧ scanPatterns buildPatterns (normQ "Alice Chan\x27s books")
        = some (Tag.studentBorrowings, some "alice chan")
    ∧ processQuery (dbStore seedDb "2026-02-01") "Alice Chan\x27s books"
        = format_borrow_rows (get_books_borrowed_by_student seedDb "alice chan")
            ("Books borrowed by \x27alice chan\x27")
    ∧ containsSub (processQuery (dbStore seedDb "2026-02-01") "Alice Chan\x27s books")
        "The Hobbit" = true
    ∧ containsSub (processQuery (dbStore seedDb "2026-02-01") "Alice Chan\x27s books")
        "1984" = true
    ∧ (get_books_borrowed_by_student seedDb "alice chan").length = 2 := by
  decide

/-- Claim C5: for every captured genre term (trimmed capture text): a term
whose lowercase form is one of the stop words makes the genre handler
return exactly what the all-books handler returns; otherwise with zero
genre-substring hits a title-substring query on the same term is issued,
a non-empty title result being framed `Books matching '<term>'`, and zero
hits on both producing the not-found-for-genre-or-title message naming
the term. -/
theorem spec_C5 (db : Database) (today : String) (c : String) :
    (pyLower (pyStrip c) ∈ skipWords →
        ∀ st : Store, handle_search_by_genre st (some c) = handle_all_books st)
    ∧ (pyLower (pyStrip c) ∉ skipWords →
        search_books_by_genre db (pyStrip c) = [] →
        search_books_by_title db (pyStrip c) ≠ [] →
        handle_search_by_genre (dbStore db today) (some c)
          = .ok (format_books (search_books_by_title db (pyStrip c))
              ("Books matching \x27" ++ pyStrip c ++ "\x27")))
    ∧ (pyLower (pyStrip c) ∉ skipWords →
        search_books_by_genre db (pyStrip c) = [] →
        search_books_by_title db (pyStrip c) = [] →
        handle_search_by_genre (dbStore db today) (some c)
          = .ok ("No books found for genre or title \x27" ++ pyStrip c ++ "\x27.")) := by
  refine ⟨?_, ?_, ?_⟩
  · intro hskip st
    simp [handle_search_by_genre, getGroup, hskip]
  · intro hskip hg ht
    simp [handle_search_by_genre, getGroup, hskip, dbStore, hg,
      List.isEmpty_iff, ht]
  · intro hskip hg ht
    simp [handle_search_by_genre, getGroup, hskip, dbStore, hg, ht, List.isEmpty_iff]

/-- Witness for C5: the stop word `"the"` delegates to the all-books
handler; `"hobbit"` has zero genre hits but a title hit on the seed data;
`"zzz"` has zero hits on both. -/
theorem spec_C5_witness :
    handle_search_by_genre (dbStore seedDb "2026-02-01") (some "the")
        = handle_all_books (dbStore seedDb "2026-02-01")
    ∧ handle_search_by_genre (dbStore seedDb "2026-02-01") (some "hobbit")
        = .ok (format_books (search_books_by_title seedDb "hobbit")
            ("Books matching \x27hobbit\x27"))
    ∧ handle_search_by_genre (dbStore seedDb "2026-02-01") (some "zzz")
        = .ok ("No books found for genre or title \x27zzz\x27.") :=
  ⟨(spec_C5 seedDb "2026-02-01" "the").1 (by decide) (dbStore seedDb "2026-02-01"),
   (spec_C5 seedDb "2026-02-01" "hobbit").2.1 (by decide) (by decide) (by decide),
   (spec_C5 seedDb "2026-02-01" "zzz").2.2 (by decide) (by decide) (by decide)⟩

/-- Claim C6: for every captured name text, the words `currently, borrow,
borrowed, has, have, did` are removed as whole words and the result
trimmed; a cleaned name that is empty or shorter than 2 characters makes
the handler return the please-specify message against any store (so no
store query is issued); otherwise the handler returns the formatted rows
of the borrowings query, whose rows are exactly the joined records of
students whose name contains the cleaned text case-insensitively,
ordered by borrow date descending, tagged `Currently Borrowed` exactly
when the return date is null and `Returned` otherwise. -/
theorem spec_C6 (db : Database) (today : String) (c : String) :
    ((cleanedName c = "" ∨ (cleanedName c).length < 2) →
        ∀ st : Store, handle_student_borrowings st (some c) = .ok pleaseSpecify)
    ∧ (¬(cleanedName c = "" ∨ (cleanedName c).length < 2) →
        handle_student_borrowings (dbStore db today) (some c)
          = .ok (format_borrow_rows (get_books_borrowed_by_student db (cleanedName c))
              ("Books borrowed by \x27" ++ cleanedName c ++ "\x27")))
    ∧ (∀ r, r ∈ get_books_borrowed_by_student db (cleanedName c) ↔
        ∃ br ∈ db.borrowings, ∃ b ∈ db.books, ∃ s ∈ db.students,
          b.id = br.book_id ∧ s.id = br.student_id ∧
          likeContains s.name (cleanedName c) = true ∧ r = mkBorrowRow (br, b, s))
    ∧ List.Sorted borrowDesc (get_books_borrowed_by_student db (cleanedName c))
    ∧ (∀ r ∈ get_books_borrowed_by_student db (cleanedName c),
        (r.status = "Currently Borrowed" ↔ r.return_date = none)
        ∧ (r.return_date ≠ none → r.status = "Returned")) := by
  have hmem : ∀ r : BorrowRow, r ∈ get_books_borrowed_by_student db (cleanedName c) ↔
      ∃ br ∈ db.borrowings, ∃ b ∈ db.books, ∃ s ∈ db.students,
        b.id = br.book_id ∧ s.id = br.student_id ∧
        likeContains s.name (cleanedName c) = true ∧ r = mkBorrowRow (br, b, s) := by
    intro r
    simp only [get_books_borrowed_by_student, List.mem_insertionSort, List.mem_map,
      List.mem_filter, joined, List.mem_flatMap, beq_iff_eq, Prod.mk.injEq, Prod.exists]
    aesop
  refine ⟨?_, ?_, hmem, List.sorted_insertionSort borrowDesc _, ?_⟩
  · intro hshort st
    simp [handle_student_borrowings, getGroup, hshort]
  · intro hlong
    simp [handle_student_borrowings, getGroup, hlong, dbStore]
  · intro r hr
    obtain ⟨br, _, b, _, s, _, _, _, _, hr⟩ := (hmem r).mp hr
    subst hr
    cases h : br.return_date <;> simp [mkBorrowRow, h]

/-- Witness for C6: the capture `"has"` cleans to the empty name, so even
a store whose every operation fails is never consulted; the capture
`"alice chan"` passes validation and is answered from the store. -/
theorem spec_C6_witness :
    handle_student_borrowings (failingStore "database is locked") (some "has")
        = .ok pleaseSpecify
    ∧ handle_student_borrowings (dbStore seedDb "2026-02-01") (some "alice chan")
        = .ok (format_borrow_rows
            (get_books_borrowed_by_student seedDb (cleanedName "alice chan"))
            ("Books borrowed by \x27" ++ cleanedName "alice chan" ++ "\x27")) :=
  ⟨(spec_C6 seedDb "2026-02-01" "has").1 (by decide) (failingStore "database is locked"),
   (spec_C6 seedDb "2026-02-01" "alice chan").2.1 (by decide)⟩

/-- Claim C7: a row is in the overdue result iff it comes from a borrowing
with null return date and due date strictly before the reference date
(so a borrowing due on or after the reference date contributes nothing);
the result is ordered by due date ascending; an empty result makes the
handler answer with the distinct no-overdue-books message (which is not
of the generic `No <title> found.` shape), a non-empty one with the
formatted rows.  `datetime.now()`'s default is the explicit reference
date `d` of the embedding. -/
theorem spec_C7 (db : Database) (d : String) :
    (∀ r, r ∈ get_overdue_books db d ↔
        ∃ br ∈ db.borrowings, ∃ b ∈ db.books, ∃ s ∈ db.students,
          b.id = br.book_id ∧ s.id = br.student_id ∧
          br.return_date = none ∧ dateLt br.due_date d = true ∧ r = mkCurRow (br, b, s))
    ∧ List.Sorted dueAsc (get_overdue_books db d)
    ∧ (get_overdue_books db d = [] →
        handle_overdue_books (dbStore db d) = .ok noOverdueMsg)
    ∧ (get_overdue_books db d ≠ [] →
        handle_overdue_books (dbStore db d)
          = .ok (format_cur_rows (get_overdue_books db d) overdueTitle))
    ∧ (∀ t, noOverdueMsg ≠ "No " ++ t ++ " found.") := by
  refine ⟨?_, List.sorted_insertionSort dueAsc _, ?_, ?_, ?_⟩
  · intro r
    simp only [get_overdue_books, List.mem_insertionSort, List.mem_map,
      List.mem_filter, joined, List.mem_flatMap, beq_iff_eq, Prod.mk.injEq, Prod.exists,
      Bool.and_eq_true, Option.isNone_iff_eq_none]
    aesop
  · intro h
    simp [handle_overdue_books, dbStore, h, List.isEmpty_iff]
  · intro h
    simp [handle_overdue_books, dbStore, h, List.isEmpty_iff]
  · intro t h
    have h1 : noOverdueMsg.data.head? = some '‚' := rfl
    have h2 : ("No " ++ t ++ " found.").data.head? = some 'N' := by
      rw [String.data_append]; rfl
    rw [h, h2] at h1
    exact absurd (Option.some.inj h1) (by decide)

set_option maxRecDepth 10000 in
/-- Witness for C7: with reference date `2025-01-01` nothing on the seed
data is overdue and the handler answers the no-overdue message; with
reference date `2026-03-05` the overdue set is non-empty and formatted. -/
theorem spec_C7_witness :
    handle_overdue_books (dbStore seedDb "2025-01-01") = .ok noOverdueMsg
    ∧ handle_overdue_books (dbStore seedDb "2026-03-05")
        = .ok (format_cur_rows (get_overdue_books seedDb "2026-03-05") overdueTitle) :=
  ⟨(spec_C7 seedDb "2025-01-01").2.2.1 (by decide),
   (spec_C7 seedDb "2026-03-05").2.2.2.1 (by decide)⟩

theorem isPrefixOf_self : ∀ l : List Char, l.isPrefixOf l = true
  | [] => rfl
  | c :: cs => by simp [List.isPrefixOf, isPrefixOf_self cs]

theorem isSubL_append_self (p : List Char) : ∀ l : List Char, isSubL p (l ++ p) = true
  | [] => by
    cases p with
    | nil => rfl
    | cons c cs => simp [isSubL, isPrefixOf_self]
  | x :: l => by simp [isSubL, isSubL_append_self p l]

theorem containsSub_append_right (a b : String) : containsSub (a ++ b) b = true := by
  simpa [containsSub, String.data_append] using isSubL_append_self b.data a.data

/-- Claim C8: for every input that matches some pattern, the dispatch
point of `process_query` converts any failure of the matched handler
(store failures included — the statement quantifies over arbitrary
stores) into the error-reporting response containing the exception
detail, and returns the handler's response unchanged otherwise; in both
cases `process_query` returns a plain string, never propagating the
failure. -/
theorem spec_C8 (st : Store) (q : String) (t : Tag) (g : Option String)
    (hne : normQ q ≠ "")
    (hscan : scanPatterns buildPatterns (normQ q) = some (t, g)) :
    processQuery st q = catchExc (runHandler t st g)
    ∧ (∀ e, runHandler t st g = .error e →
        processQuery st q = "Sorry, I encountered an error: " ++ e
        ∧ containsSub (processQuery st q) e = true)
    ∧ (∀ s, runHandler t st g = .ok s → processQuery st q = s) := by
  have hmain : processQuery st q = catchExc (runHandler t st g) := by
    simp [processQuery, processQueryWith, hne, hscan]
  refine ⟨hmain, ?_, ?_⟩
  · intro e he
    rw [hmain, he]
    exact ⟨rfl, containsSub_append_right "Sorry, I encountered an error: " e⟩
  · intro s hs
    rw [hmain, hs]; rfl

set_option maxRecDepth 10000 in
/-- Witness for C8: against a store whose operations all raise
`database is locked`, the query `"overdue books"` (captured by the
student-borrowings pattern at index 2) produces the error-reporting
response, and `process_query` still returns a string. -/
theorem spec_C8_witness :
    processQuery (failingStore "database is locked") "overdue books"
        = "Sorry, I encountered an error: database is locked"
    ∧ containsSub (processQuery (failingStore "database is locked") "overdue books")
        "database is locked" = true :=
  (spec_C8 (failingStore "database is locked") "overdue books"
      Tag.studentBorrowings (some "overdue") (by decide) (by decide)).2.1
    "database is locked" (by rfl)

/-- Claim C9: on an empty books table the stats report
`total_copies = 0`, `available_copies = 0` and `borrowed_copies = 0`
(the `or 0` coalescing of the NULL sums), and on every database
`borrowed_copies = total_copies - available_copies`. -/
theorem spec_C9 (db : Database) :
    (db.books = [] →
        (get_library_stats db).total_copies = 0
        ∧ (get_library_stats db).available_copies = 0
        ∧ (get_library_stats db).borrowed_copies = 0)
    ∧ (get_library_stats db).borrowed_copies
        = (get_library_stats db).total_copies - (get_library_stats db).available_copies := by
  refine ⟨?_, rfl⟩
  intro h
  simp [get_library_stats, h, sqlSum]

/-- Witness for C9 at the empty database. -/
theorem spec_C9_witness :
    (get_library_stats ⟨[], [], []⟩).total_copies = 0
    ∧ (get_library_stats ⟨[], [], []⟩).available_copies = 0
    ∧ (get_library_stats ⟨[], [], []⟩).borrowed_copies = 0 :=
  (spec_C9 ⟨[], [], []⟩).1 rfl

/-- Claim C10: for a fixed store (database state and current date) the
agent is deterministic and stateless: a second `process_query` call on
the state returned by a first call with the same input yields the
identical response, the agent state is unchanged, and the pattern table
is the one built once at construction. -/
theorem spec_C10 (st : Store) (q : String) :
    (processQueryS mkAgent st q).1 = (processQueryS (processQueryS mkAgent st q).2 st q).1
    ∧ (processQueryS mkAgent st q).2 = mkAgent
    ∧ mkAgent.patterns = buildPatterns :=
  ⟨rfl, rfl, rfl⟩
